import Mathlib

/-!
Verification development for the lunar-back form-management service.

The definitions below are a shallow embedding of the Python sources:
`google_sheets.py` (field accessor, datetime formatter, row export and
sheet publish) and `main.py` (request handlers and validators), over the
data model of `models.py` / `schemas.py`.  External effects (environment
variables, the Google Sheets API) are modelled by an explicit environment
record whose fields give the outcome of each external call; Python
exceptions are modelled with `Except`.
-/

/-- Naive wall-clock timestamp, mirroring Python `datetime.datetime`
(microseconds are irrelevant to the formatter's output and omitted). -/
structure PyDateTime where
  year : Nat
  month : Nat
  day : Nat
  hour : Nat
  minute : Nat
  second : Nat
deriving DecidableEq

/-- Zero-pad a number to two digits, as `strftime` does for `%m %d %H %M %S`. -/
def pad2 (n : Nat) : String :=
  if n < 10 then "0" ++ toString n else toString n

/-- Zero-pad a number to four digits, as `strftime` does for `%Y`. -/
def pad4 (n : Nat) : String :=
  if n < 10 then "000" ++ toString n
  else if n < 100 then "00" ++ toString n
  else if n < 1000 then "0" ++ toString n
  else toString n

/-- Embedding of `dt.strftime("%Y-%m-%d %H:%M:%S")`. -/
def strftime (d : PyDateTime) : String :=
  pad4 d.year ++ "-" ++ pad2 d.month ++ "-" ++ pad2 d.day ++ " " ++
    pad2 d.hour ++ ":" ++ pad2 d.minute ++ ":" ++ pad2 d.second

/-- Runtime values a form field can hold in the Python program: `None`,
a string, an integer id, a `datetime`, or an object whose `str()` raises
(the case the accessor's `except` clause is there for). -/
inductive PVal where
  | vNone
  | vStr (s : String)
  | vInt (n : Int)
  | vDatetime (d : PyDateTime)
  | vRaise
deriving DecidableEq

/-- Embedding of Python `str(v)`: `str(None)` is the text `None`; `str`
of a datetime equals its `%Y-%m-%d %H:%M:%S` rendering; `vRaise` raises. -/
def py_str : PVal → Except Unit String
  | PVal.vNone => Except.ok "None"
  | PVal.vStr s => Except.ok s
  | PVal.vInt n => Except.ok (toString n)
  | PVal.vDatetime d => Except.ok (strftime d)
  | PVal.vRaise => Except.error ()

/-- Embedding of Python truthiness (`if dt:`): `None` and the empty string
are falsy, every datetime and nonzero int is truthy. -/
def py_truthy : PVal → Bool
  | PVal.vNone => false
  | PVal.vStr s => !s.isEmpty
  | PVal.vInt n => n != 0
  | PVal.vDatetime _ => true
  | PVal.vRaise => true

/-- A record as seen by `get_form_value`: either a Python dict or an
object with named attributes (the SQLAlchemy ORM instance). -/
inductive PyForm where
  | dict (entries : List (String × PVal))
  | obj (attrs : List (String × PVal))
deriving DecidableEq

/-- Field lookup underlying both `form.get(field, ...)` and
`getattr(form, field, ...)`: `Option.none` when the key or attribute is
absent. -/
def fieldLookup (form : PyForm) (field : String) : Option PVal :=
  match form with
  | PyForm.dict entries => entries.lookup field
  | PyForm.obj attrs => attrs.lookup field

/-- Body of `get_form_value` before its `except` clause:
`str(form.get(field, ''))` for dicts, `str(getattr(form, field, ''))`
for objects (absence falls back to the default `''`). -/
def gfv_raw (form : PyForm) (field : String) : Except Unit String :=
  py_str ((fieldLookup form field).getD (PVal.vStr ""))

/-- Embedding of `get_form_value` (google_sheets.py lines 33-40): the
`try`/`except` converts any error while reading to the empty string. -/
def get_form_value (form : PyForm) (field : String) : String :=
  match gfv_raw form field with
  | Except.ok s => s
  | Except.error _ => ""

/-- Embedding of `format_datetime` (google_sheets.py lines 29-31):
`dt.strftime(...) if dt else ""`.  A falsy argument yields `""`; a truthy
non-datetime has no `strftime`, so the call raises (`AttributeError`). -/
def format_datetime (dt : PVal) : Except Unit String :=
  if py_truthy dt then
    match dt with
    | PVal.vDatetime d => Except.ok (strftime d)
    | _ => Except.error ()
  else Except.ok ""

/-- `isinstance(x, datetime)` applied to a value that is a Python `str`
(the return type of `get_form_value`, both of whose branches return
`str(...)`): always `False`. -/
def str_isinstance_datetime (_ : String) : Bool := false

/-- The Created At cell expression of the export loop (google_sheets.py
lines 85-88): `format_datetime(g if isinstance(g, datetime) else None)`
where `g = get_form_value(form, 'created_at')` is a `str`. -/
def created_at_cell (form : PyForm) : Except Unit String :=
  format_datetime
    (if str_isinstance_datetime (get_form_value form "created_at")
     then PVal.vStr (get_form_value form "created_at")
     else PVal.vNone)

/-- Fixed header row (google_sheets.py line 73). -/
def HEADERS : List String :=
  ["ID", "Name", "Email", "Phone", "Message", "Company", "Service", "Created At"]

/-- Fallback tab name (google_sheets.py line 11). -/
def DEFAULT_SHEET_NAME : String := "Sheet1"

/-- One data row of the export loop (google_sheets.py lines 77-89); the
only sub-expression that can raise is the Created At cell. -/
def dataRowE (form : PyForm) : Except Unit (List String) :=
  (created_at_cell form).map (fun cell =>
    [get_form_value form "id",
     get_form_value form "name",
     get_form_value form "email",
     get_form_value form "phone_number",
     get_form_value form "message",
     get_form_value form "company",
     get_form_value form "service",
     cell])

/-- The `for form in forms: values.append([...])` loop: rows are appended
in input order; an exception while building a row aborts the loop. -/
def appendRows (forms : List PyForm) (values : List (List String)) :
    Except Unit (List (List String)) :=
  match forms with
  | [] => Except.ok values
  | form :: rest =>
    match dataRowE form with
    | Except.error e => Except.error e
    | Except.ok row => appendRows rest (values ++ [row])

/-- Grid construction of `sync_forms_to_sheet` (google_sheets.py lines
73-89): `values = [headers]` followed by the append loop. -/
def build_values (forms : List PyForm) : Except Unit (List (List String)) :=
  appendRows forms [HEADERS]

/-- Closed form of a data row, used only in theorem statements: the first
seven cells via the field accessor, and the Created At cell, which the
theorems below prove is the empty string for every record. -/
def exportRowSpec (form : PyForm) : List String :=
  [get_form_value form "id",
   get_form_value form "name",
   get_form_value form "email",
   get_form_value form "phone_number",
   get_form_value form "message",
   get_form_value form "company",
   get_form_value form "service",
   ""]

/-- Python exceptions raised by Google API calls: `HttpError` (the
external service reported an error) or any other exception. -/
inductive PyErr where
  | http (msg : String)
  | other (msg : String)
deriving DecidableEq

/-- Data-plane calls `sync_forms_to_sheet` makes against the external
tabular store: the tab listing, the clear, and the write. -/
inductive SheetCall where
  | getMetadata
  | clearRange (rangeName : String)
  | writeRange (rangeName : String) (values : List (List String))
deriving DecidableEq

instance {ε α : Type} [DecidableEq ε] [DecidableEq α] : DecidableEq (Except ε α) := fun x y =>
  match x, y with
  | Except.ok a, Except.ok b =>
    if h : a = b then isTrue (by rw [h])
    else isFalse (by intro hc; cases hc; exact h rfl)
  | Except.ok _, Except.error _ => isFalse (by intro hc; cases hc)
  | Except.error _, Except.ok _ => isFalse (by intro hc; cases hc)
  | Except.error e, Except.error f =>
    if h : e = f then isTrue (by rw [h])
    else isFalse (by intro hc; cases hc; exact h rfl)

/-- Environment of one `sync_forms_to_sheet` run: the two environment
variables it reads and the outcome of each external call, in the order
the code makes them (credential construction, tab listing, clear, write). -/
structure SheetEnv where
  google_credentials : Option String
  creds_ok : Bool
  google_sheet_id : Option String
  metadata : Except PyErr (List String)
  clear_result : Except PyErr Unit
  update_result : Except PyErr Unit
deriving DecidableEq

/-- Embedding of `get_google_sheets_service` (google_sheets.py lines
13-27): a missing or empty `GOOGLE_CREDENTIALS` raises `ValueError`,
and that or any credential/build failure is caught inside this function,
which then returns `None`. -/
def get_google_sheets_service (env : SheetEnv) : Option Unit :=
  match env.google_credentials with
  | Option.none => Option.none
  | some c => if !c.isEmpty && env.creds_ok then some () else Option.none

/-- The `try` body of `sync_forms_to_sheet` (google_sheets.py lines
44-99), paired with the trace of data-plane calls made so far; a raised
exception carries the trace up to and including the failing call. -/
def sync_attempt (env : SheetEnv) (forms : List PyForm) :
    Except (PyErr × List SheetCall) (Bool × List SheetCall) :=
  match get_google_sheets_service env with
  | Option.none => Except.ok (false, [])
  | some _ =>
    match env.google_sheet_id with
    | Option.none => Except.ok (false, [])
    | some sid =>
      if sid.isEmpty then Except.ok (false, [])
      else
        match env.metadata with
        | Except.error e => Except.error (e, [SheetCall.getMetadata])
        | Except.ok tabs =>
          let sheet_name := if tabs.contains "lunar" then "lunar" else DEFAULT_SHEET_NAME
          let range_name := sheet_name ++ "!A:H"
          match env.clear_result with
          | Except.error e =>
            Except.error (e, [SheetCall.getMetadata, SheetCall.clearRange range_name])
          | Except.ok _ =>
            match build_values forms with
            | Except.error _ =>
              Except.error (PyErr.other "AttributeError",
                [SheetCall.getMetadata, SheetCall.clearRange range_name])
            | Except.ok values =>
              match env.update_result with
              | Except.error e =>
                Except.error (e,
                  [SheetCall.getMetadata, SheetCall.clearRange range_name,
                   SheetCall.writeRange (sheet_name ++ "!A1") values])
              | Except.ok _ =>
                Except.ok (true,
                  [SheetCall.getMetadata, SheetCall.clearRange range_name,
                   SheetCall.writeRange (sheet_name ++ "!A1") values])

/-- `sync_forms_to_sheet` with its call trace: the two `except` clauses
(google_sheets.py lines 101-107) turn any raised exception into `False`. -/
def sync_forms_to_sheet_t (env : SheetEnv) (forms : List PyForm) :
    Bool × List SheetCall :=
  match sync_attempt env forms with
  | Except.ok r => r
  | Except.error (_, tr) => (false, tr)

/-- Return value of `sync_forms_to_sheet` (google_sheets.py lines 42-107). -/
def sync_forms_to_sheet (env : SheetEnv) (forms : List PyForm) : Bool :=
  (sync_forms_to_sheet_t env forms).1

/-- A match of the anchored patterns may, per Python `$` semantics, also
end just before a single trailing newline. -/
def matchEndOpt (core : List Char → Bool) (cs : List Char) : Bool :=
  core cs || (cs.getLast? == some '\n' && core cs.dropLast)

/-- A run of 9 to 15 decimal digits. -/
def digitRun9to15 (cs : List Char) : Bool :=
  cs.all Char.isDigit && decide (9 ≤ cs.length) && decide (cs.length ≤ 15)

/-- The pattern suffix after the optional plus sign. -/
def afterPlus (cs : List Char) : Bool :=
  (match cs with
   | '1' :: rest => digitRun9to15 rest
   | _ => false) || digitRun9to15 cs

/-- Body of the phone pattern (optional plus, optional leading one,
9 to 15 digits). -/
def phoneCore (cs : List Char) : Bool :=
  (match cs with
   | '+' :: rest => afterPlus rest
   | _ => false) || afterPlus cs

/-- Embedding of `validate_phone_number` (main.py lines 96-99). -/
def validate_phone_number (s : String) : Bool :=
  matchEndOpt phoneCore s.data

/-- Characters admitted in the local part of the email pattern. -/
def isLocalChar (c : Char) : Bool :=
  c.isAlpha || c.isDigit || c == '.' || c == '_' || c == '%' || c == '+' || c == '-'

/-- Characters admitted in the domain part of the email pattern. -/
def isDomainChar (c : Char) : Bool :=
  c.isAlpha || c.isDigit || c == '.' || c == '-'

/-- The domain of the email pattern: a nonempty domain-character run, a
dot, then at least two letters to the end. -/
def domainCore (cs : List Char) : Bool :=
  (List.range cs.length).any (fun i =>
    cs.get? i == some '.' && decide (1 ≤ i) &&
    (cs.take i).all isDomainChar &&
    (cs.drop (i + 1)).all Char.isAlpha && decide (2 ≤ cs.length - (i + 1)))

/-- Body of the email pattern: nonempty local part, the at sign, domain. -/
def emailCore (cs : List Char) : Bool :=
  match cs.span (fun c => c != '@') with
  | (loc, '@' :: dom) => !loc.isEmpty && loc.all isLocalChar && domainCore dom
  | _ => false

/-- Embedding of `validate_email` (main.py lines 101-104). -/
def validate_email (s : String) : Bool :=
  matchEndOpt emailCore s.data

/-- One row of the `forms` table (models.py): `message`, `created_at` and
`updated_at` are nullable, the rest is `NOT NULL`. -/
structure FormRec where
  id : Nat
  name : String
  email : String
  phone_number : String
  message : Option String
  company : String
  service : String
  created_at : Option PyDateTime
  updated_at : Option PyDateTime
deriving DecidableEq

/-- The relational store: the `forms` table in scan order plus the next
primary-key value the store will assign. -/
structure FormStore where
  rows : List FormRec
  next_id : Nat
deriving DecidableEq

/-- Request body of a create (schemas.py `FormCreate`): `message` is the
only optional field. -/
structure FormCreate where
  name : String
  email : String
  phone_number : String
  message : Option String
  company : String
  service : String
deriving DecidableEq

/-- Request body of a put (schemas.py `FormUpdate`) after
`model_dump(exclude_unset=True)`: the outer `Option` is presence of the
key in the request body, the inner one a supplied JSON null. -/
structure FormUpdate where
  name : Option (Option String)
  email : Option (Option String)
  phone_number : Option (Option String)
  message : Option (Option String)
  company : Option (Option String)
  service : Option (Option String)
deriving DecidableEq

/-- Errors a handler run can end in: an `HTTPException`, the `TypeError`
from validating a supplied JSON null, or the commit-time `NOT NULL`
integrity error. -/
inductive HErr where
  | http (code : Nat) (detail : String)
  | typeError
  | integrityError
deriving DecidableEq

/-- Outcome of one handler run: the store afterwards, the record
sequences handed to `sync_forms_to_sheet` as background tasks, and the
response. -/
structure HandlerOut (α : Type) where
  store : FormStore
  scheduled : List (List FormRec)
  resp : Except HErr α
deriving DecidableEq

/-- Embedding of `create_form` (main.py lines 113-129): validate, insert
(the store assigns id and created_at), then schedule a sync of the
re-queried full table. -/
def create_form (st : FormStore) (f : FormCreate) (now : PyDateTime) :
    HandlerOut FormRec :=
  if validate_email f.email = false then
    ⟨st, [], Except.error (HErr.http 400 "Invalid email format")⟩
  else if validate_phone_number f.phone_number = false then
    ⟨st, [], Except.error (HErr.http 400 "Invalid phone number format")⟩
  else
    let r : FormRec :=
      ⟨st.next_id, f.name, f.email, f.phone_number, f.message, f.company,
       f.service, some now, Option.none⟩
    let rows2 := st.rows ++ [r]
    ⟨⟨rows2, st.next_id + 1⟩, [rows2], Except.ok r⟩

/-- Embedding of `get_forms` (main.py lines 131-138): the handler reads
`offset(skip).limit(limit)` and schedules a sync of that same page. -/
def get_forms (st : FormStore) (skip limit : Nat) :
    HandlerOut (List FormRec) :=
  let forms := (st.rows.drop skip).take limit
  ⟨st, [forms], Except.ok forms⟩

/-- In-place mutation of the first record with the given id, as
`query.filter(id == form_id).first()` followed by `setattr` does. -/
def setById (rows : List FormRec) (i : Nat) (f : FormRec → FormRec) :
    List FormRec :=
  match rows with
  | [] => []
  | r :: rest => if r.id = i then f r :: rest else r :: setById rest i f

/-- Deletion of the first record with the given id. -/
def removeById (rows : List FormRec) (i : Nat) : List FormRec :=
  match rows with
  | [] => []
  | r :: rest => if r.id = i then rest else r :: removeById rest i

/-- The `setattr` loop of `update_form` over the supplied keys, plus the
store-side `onupdate` refresh of `updated_at` at commit. -/
def applyUpdate (u : FormUpdate) (now : PyDateTime) (r : FormRec) : FormRec :=
  { r with
    name := match u.name with
      | some (some v) => v
      | _ => r.name
    email := match u.email with
      | some (some v) => v
      | _ => r.email
    phone_number := match u.phone_number with
      | some (some v) => v
      | _ => r.phone_number
    message := match u.message with
      | some v => v
      | Option.none => r.message
    company := match u.company with
      | some (some v) => v
      | _ => r.company
    service := match u.service with
      | some (some v) => v
      | _ => r.service
    updated_at := some now }

/-- The email branch of `update_form`'s validation: a key absent from the
dump is not checked; a supplied null reaches `re.match(pattern, None)`
and raises `TypeError`; a supplied string is checked against the pattern. -/
def checkEmailUpd : Option (Option String) → Except HErr Unit
  | Option.none => Except.ok ()
  | some Option.none => Except.error HErr.typeError
  | some (some s) =>
    if validate_email s then Except.ok ()
    else Except.error (HErr.http 400 "Invalid email format")

/-- The phone branch of `update_form`'s validation, same shape as the
email branch. -/
def checkPhoneUpd : Option (Option String) → Except HErr Unit
  | Option.none => Except.ok ()
  | some Option.none => Except.error HErr.typeError
  | some (some s) =>
    if validate_phone_number s then Except.ok ()
    else Except.error (HErr.http 400 "Invalid phone number format")

/-- Embedding of `update_form` (main.py lines 147-171): 404 when the id
is absent, validation of supplied email and phone, the `setattr` loop,
the commit (which enforces the `NOT NULL` columns), then a sync of the
re-queried full table. -/
def update_form (st : FormStore) (form_id : Nat) (u : FormUpdate)
    (now : PyDateTime) : HandlerOut FormRec :=
  match st.rows.find? (fun r => r.id == form_id) with
  | Option.none => ⟨st, [], Except.error (HErr.http 404 "Form not found")⟩
  | some r0 =>
    match checkEmailUpd u.email with
    | Except.error e => ⟨st, [], Except.error e⟩
    | Except.ok _ =>
      match checkPhoneUpd u.phone_number with
      | Except.error e => ⟨st, [], Except.error e⟩
      | Except.ok _ =>
        if u.name = some Option.none ∨ u.company = some Option.none ∨
            u.service = some Option.none then
          ⟨st, [], Except.error HErr.integrityError⟩
        else
          let rows2 := setById st.rows form_id (applyUpdate u now)
          ⟨⟨rows2, st.next_id⟩, [rows2], Except.ok (applyUpdate u now r0)⟩

/-- Embedding of `delete_form` (main.py lines 173-186): 404 when the id
is absent, otherwise delete and schedule a sync of the re-queried full
table. -/
def delete_form (st : FormStore) (form_id : Nat) : HandlerOut Unit :=
  match st.rows.find? (fun r => r.id == form_id) with
  | Option.none => ⟨st, [], Except.error (HErr.http 404 "Form not found")⟩
  | some _ =>
    let rows2 := removeById st.rows form_id
    ⟨⟨rows2, st.next_id⟩, [rows2], Except.ok ()⟩

/-- The attribute view the Row Exporter sees of a stored record: the
SQLAlchemy instance exposes every column as an attribute, nullable
columns holding `None`. -/
def toPyObj (r : FormRec) : PyForm :=
  PyForm.obj
    [("id", PVal.vInt r.id),
     ("name", PVal.vStr r.name),
     ("email", PVal.vStr r.email),
     ("phone_number", PVal.vStr r.phone_number),
     ("message", match r.message with
       | some s => PVal.vStr s
       | Option.none => PVal.vNone),
     ("company", PVal.vStr r.company),
     ("service", PVal.vStr r.service),
     ("created_at", match r.created_at with
       | some d => PVal.vDatetime d
       | Option.none => PVal.vNone),
     ("updated_at", match r.updated_at with
       | some d => PVal.vDatetime d
       | Option.none => PVal.vNone)]

/-- Concrete timestamp used by the concrete-input theorems below. -/
def dt0 : PyDateTime := ⟨2024, 3, 5, 14, 30, 0⟩

/-- A stored record carrying that timestamp and a null message, as the
ORM produces for the spec's end-to-end creation scenario. -/
def recA : FormRec :=
  ⟨1, "A", "a@x.com", "123456789", Option.none, "C", "S", some dt0, Option.none⟩

/-- The attribute view of `recA`. -/
def formC1 : PyForm := toPyObj recA

/-- The create request of the spec's end-to-end scenario (no message). -/
def fC3 : FormCreate := ⟨"A", "a@x.com", "123456789", Option.none, "C", "S"⟩

/-- A create request with an email the pattern rejects. -/
def fBad : FormCreate := ⟨"N", "bademail", "123456789", Option.none, "C", "S"⟩

/-- The empty store. -/
def store0 : FormStore := ⟨[], 1⟩

/-- A family of distinct valid records. -/
def mkRec (k : Nat) : FormRec :=
  ⟨k + 1, "N", "e@x.com", "123456789", Option.none, "C", "S", some dt0, Option.none⟩

/-- A store holding eleven records, one more than the default page size. -/
def st11 : FormStore := ⟨(List.range 11).map mkRec, 12⟩

/-- A two-record store for the update frame witness. -/
def stW : FormStore := ⟨[recA, mkRec 41], 43⟩

/-- An update supplying only the name. -/
def uW : FormUpdate :=
  ⟨some (some "B"), Option.none, Option.none, Option.none, Option.none, Option.none⟩

/-- The commit time of that update. -/
def dtW : PyDateTime := ⟨2024, 4, 1, 0, 0, 0⟩

/-- Sheet environment with everything configured and every call failing
nowhere except the clear step. -/
def envClearFail : SheetEnv :=
  ⟨some "creds", true, some "sid", Except.ok ["lunar"],
   Except.error (PyErr.http "boom"), Except.ok ()⟩

/-- Sheet environment with everything configured and every call
succeeding. -/
def envAllOk : SheetEnv :=
  ⟨some "creds", true, some "sid", Except.ok ["lunar"], Except.ok (), Except.ok ()⟩

/-- Sheet environment with credentials but no spreadsheet identifier. -/
def envNoSheet : SheetEnv :=
  ⟨some "creds", true, Option.none, Except.ok [], Except.ok (), Except.ok ()⟩

theorem created_at_cell_eq (form : PyForm) : created_at_cell form = Except.ok "" :=
  rfl

theorem dataRowE_eq (form : PyForm) : dataRowE form = Except.ok (exportRowSpec form) :=
  rfl

theorem appendRows_eq (forms : List PyForm) :
    ∀ acc, appendRows forms acc = Except.ok (acc ++ forms.map exportRowSpec) := by
  induction forms with
  | nil => intro acc; simp [appendRows]
  | cons f fs ih =>
    intro acc
    simp only [appendRows, dataRowE_eq f, List.map_cons]
    rw [ih (acc ++ [exportRowSpec f])]
    simp

theorem build_values_eq (forms : List PyForm) :
    build_values forms = Except.ok (HEADERS :: forms.map exportRowSpec) := by
  rw [build_values, appendRows_eq forms [HEADERS]]
  simp

theorem setById_length (rows : List FormRec) (i : Nat) (f : FormRec → FormRec) :
    (setById rows i f).length = rows.length := by
  induction rows with
  | nil => rfl
  | cons r rest ih => by_cases h : r.id = i <;> simp [setById, h, ih]

theorem setById_getElem (rows : List FormRec) (i : Nat) (f : FormRec → FormRec) :
    ∀ (j : Nat) (a : FormRec), rows[j]? = some a →
      ∃ b, (setById rows i f)[j]? = some b ∧
        (b = a ∨ (b = f a ∧ a.id = i)) := by
  induction rows with
  | nil => intro j a h; simp at h
  | cons r rest ih =>
    intro j a h
    by_cases hr : r.id = i
    · cases j with
      | zero =>
        simp only [List.getElem?_cons_zero, Option.some.injEq] at h
        subst h
        exact ⟨f r, by simp [setById, hr], Or.inr ⟨rfl, hr⟩⟩
      | succ j =>
        simp only [List.getElem?_cons_succ] at h
        exact ⟨a, by simp [setById, hr, h], Or.inl rfl⟩
    · cases j with
      | zero =>
        simp only [List.getElem?_cons_zero, Option.some.injEq] at h
        subst h
        exact ⟨r, by simp [setById, hr], Or.inl rfl⟩
      | succ j =>
        simp only [List.getElem?_cons_succ] at h
        obtain ⟨b, hb1, hb2⟩ := ih j a h
        exact ⟨b, by simp [setById, hr, hb1], hb2⟩

/-- C1: the claim says a present `created_at` renders as
`YYYY-MM-DD HH:MM:SS` in the Created At cell.  The code disagrees: on a
record whose `created_at` is the datetime 2024-03-05 14:30:00, the cell
the export loop produces is the empty string, because the
`isinstance(..., datetime)` test is applied to `get_form_value`'s string
result and so never selects the datetime branch; the canonical formatter
itself would have produced `2024-03-05 14:30:00`. -/
theorem C1_created_at_bug :
    created_at_cell formC1 = Except.ok "" ∧
    fieldLookup formC1 "created_at" = some (PVal.vDatetime dt0) ∧
    format_datetime (PVal.vDatetime dt0) = Except.ok "2024-03-05 14:30:00" ∧
    ("" : String) ≠ "2024-03-05 14:30:00" :=
  ⟨rfl, rfl, rfl, by decide⟩

/-- C3 counterexample: creating the spec's example record (no message)
and exporting the resulting table yields a data row whose Message cell is
the text `None`, not the empty string the claim demands. -/
theorem C3_counterexample :
    (create_form store0 fC3 dt0).store.rows.map (fun r => exportRowSpec (toPyObj r)) =
      [["1", "A", "a@x.com", "123456789", "None", "C", "S", ""]] ∧
    ("None" : String) ≠ "" :=
  ⟨rfl, by decide⟩

/-- C3 amended: the Message cell of an exported data row is the empty
string exactly when the record has no message key or attribute at all;
a message that is present but null is stringified to the text `None`. -/
theorem C3_message_amended (form : PyForm) :
    (fieldLookup form "message" = Option.none →
      (exportRowSpec form).get? 4 = some "") ∧
    (fieldLookup form "message" = some PVal.vNone →
      (exportRowSpec form).get? 4 = some "None") := by
  have hcell : (exportRowSpec form).get? 4 = some (get_form_value form "message") := rfl
  constructor
  · intro h
    rw [hcell]
    simp [get_form_value, gfv_raw, h, py_str]
  · intro h
    rw [hcell]
    simp [get_form_value, gfv_raw, h, py_str]

theorem C3_message_amended_witness :
    (exportRowSpec (PyForm.obj [])).get? 4 = some "" ∧
    (exportRowSpec (PyForm.obj [("message", PVal.vNone)])).get? 4 = some "None" :=
  ⟨(C3_message_amended (PyForm.obj [])).1 rfl,
   (C3_message_amended (PyForm.obj [("message", PVal.vNone)])).2 rfl⟩

/-- C4: the field accessor is total.  Whenever its body raises, the
`except` clause returns the empty string; a readable value is returned as
its text; an absent field (key or attribute missing) yields the empty
string. -/
theorem C4_accessor_total (form : PyForm) (field : String) :
    (gfv_raw form field = Except.error () → get_form_value form field = "") ∧
    (∀ s, gfv_raw form field = Except.ok s → get_form_value form field = s) ∧
    (fieldLookup form field = Option.none → get_form_value form field = "") := by
  refine ⟨?_, ?_, ?_⟩
  · intro h
    simp [get_form_value, h]
  · intro s h
    simp [get_form_value, h]
  · intro h
    simp [get_form_value, gfv_raw, h, py_str]

theorem C4_accessor_total_witness :
    get_form_value (PyForm.obj [("x", PVal.vRaise)]) "x" = "" ∧
    get_form_value (PyForm.dict [("a", PVal.vStr "v")]) "a" = "v" ∧
    get_form_value (PyForm.dict []) "missing" = "" :=
  ⟨(C4_accessor_total (PyForm.obj [("x", PVal.vRaise)]) "x").1 rfl,
   (C4_accessor_total (PyForm.dict [("a", PVal.vStr "v")]) "a").2.1 "v" rfl,
   (C4_accessor_total (PyForm.dict []) "missing").2.2 rfl⟩

/-- C5: on any input sequence (also the empty one) the Row Exporter
never fails and produces the fixed header followed by exactly one 8-cell
data row per record, in input order, each row built by the field accessor
in the column order of the header. -/
theorem C5_grid_shape (forms : List PyForm) :
    build_values forms = Except.ok (HEADERS :: forms.map exportRowSpec) ∧
    (HEADERS :: forms.map exportRowSpec).length = forms.length + 1 ∧
    (∀ form, (exportRowSpec form).length = 8) ∧
    HEADERS = ["ID", "Name", "Email", "Phone", "Message", "Company",
      "Service", "Created At"] :=
  ⟨build_values_eq forms, by simp, fun _ => rfl, rfl⟩

/-- C2 counterexample: with eleven records in the store, the list handler
with its default page (skip 0, limit 10) hands the background sync a
10-record page, not the entire 11-record table. -/
theorem C2_counterexample :
    (get_forms st11 0 10).scheduled ≠ [st11.rows] := by decide

/-- C2 amended: whenever the create, update or delete handler schedules a
sync, the sequence it hands over is the entire post-operation table; the
list handler, by contrast, always hands over exactly its offset/limit
page of the table. -/
theorem C2_full_table_amended :
    (∀ st f now, (create_form st f now).scheduled = [] ∨
      (create_form st f now).scheduled = [(create_form st f now).store.rows]) ∧
    (∀ st i u now, (update_form st i u now).scheduled = [] ∨
      (update_form st i u now).scheduled = [(update_form st i u now).store.rows]) ∧
    (∀ st i, (delete_form st i).scheduled = [] ∨
      (delete_form st i).scheduled = [(delete_form st i).store.rows]) ∧
    (∀ st skip limit, (get_forms st skip limit).scheduled =
      [(st.rows.drop skip).take limit]) := by
  refine ⟨?_, ?_, ?_, ?_⟩
  · intro st f now
    by_cases h1 : validate_email f.email = false
    · left; simp [create_form, h1]
    · by_cases h2 : validate_phone_number f.phone_number = false
      · left; simp [create_form, h1, h2]
      · right; simp [create_form, h1, h2]
  · intro st i u now
    cases hf : st.rows.find? (fun r => r.id == i) with
    | none => left; simp [update_form, hf]
    | some r0 =>
      cases he : checkEmailUpd u.email with
      | error e => left; simp [update_form, hf, he]
      | ok v =>
        cases hp : checkPhoneUpd u.phone_number with
        | error e => left; simp [update_form, hf, he, hp]
        | ok w =>
          by_cases hn : u.name = some Option.none ∨ u.company = some Option.none ∨
            u.service = some Option.none
          · left; simp [update_form, hf, he, hp, hn]
          · right; simp [update_form, hf, he, hp, hn]
  · intro st i
    cases hf : st.rows.find? (fun r => r.id == i) with
    | none => left; simp [delete_form, hf]
    | some r0 => right; simp [delete_form, hf]
  · intro st skip limit
    rfl

/-- C6: publish never propagates an exception, and it returns true
exactly when credentials are present and usable, the spreadsheet
identifier is present, and the tab listing, clear and write calls all
succeed. -/
theorem C6_publish_total (env : SheetEnv) (forms : List PyForm) :
    (∀ e tr, sync_attempt env forms = Except.error (e, tr) →
      sync_forms_to_sheet env forms = false) ∧
    (sync_forms_to_sheet env forms = true ↔
      ((∃ c, env.google_credentials = some c ∧ c.isEmpty = false) ∧
       env.creds_ok = true ∧
       (∃ sid, env.google_sheet_id = some sid ∧ sid.isEmpty = false) ∧
       (∃ tabs, env.metadata = Except.ok tabs) ∧
       env.clear_result = Except.ok () ∧
       env.update_result = Except.ok ())) := by
  constructor
  · intro e tr hE
    simp [sync_forms_to_sheet, sync_forms_to_sheet_t, hE]
  · obtain ⟨gc, cok, gid, md, cl, up⟩ := env
    rcases gc with _ | c
    · simp [sync_forms_to_sheet, sync_forms_to_sheet_t, sync_attempt,
        get_google_sheets_service]
    · cases hcE : c.isEmpty with
      | true =>
        simp [sync_forms_to_sheet, sync_forms_to_sheet_t, sync_attempt,
          get_google_sheets_service, hcE]
      | false =>
        cases cok with
        | false =>
          simp [sync_forms_to_sheet, sync_forms_to_sheet_t, sync_attempt,
            get_google_sheets_service, hcE]
        | true =>
          rcases gid with _ | sid
          · simp [sync_forms_to_sheet, sync_forms_to_sheet_t, sync_attempt,
              get_google_sheets_service, hcE]
          · cases hsE : sid.isEmpty with
            | true =>
              simp [sync_forms_to_sheet, sync_forms_to_sheet_t, sync_attempt,
                get_google_sheets_service, hcE, hsE]
            | false =>
              rcases md with e1 | tabs
              · simp [sync_forms_to_sheet, sync_forms_to_sheet_t, sync_attempt,
                  get_google_sheets_service, hcE, hsE]
              · rcases cl with e2 | u2
                · simp [sync_forms_to_sheet, sync_forms_to_sheet_t, sync_attempt,
                    get_google_sheets_service, hcE, hsE]
                · rcases up with e3 | u3
                  · simp [sync_forms_to_sheet, sync_forms_to_sheet_t, sync_attempt,
                      get_google_sheets_service, hcE, hsE, build_values_eq forms]
                  · simp [sync_forms_to_sheet, sync_forms_to_sheet_t, sync_attempt,
                      get_google_sheets_service, hcE, hsE, build_values_eq forms]

theorem C6_publish_total_witness :
    sync_forms_to_sheet envClearFail [] = false ∧
    sync_forms_to_sheet envAllOk [] = true :=
  ⟨(C6_publish_total envClearFail []).1 (PyErr.http "boom")
      [SheetCall.getMetadata, SheetCall.clearRange "lunar!A:H"] rfl,
   (C6_publish_total envAllOk []).2.mpr
      ⟨⟨"creds", rfl, rfl⟩, rfl, ⟨"sid", rfl, rfl⟩, ⟨["lunar"], rfl⟩, rfl, rfl⟩⟩

/-- C7: with no spreadsheet identifier configured, publish returns false
and the trace of data-plane calls is empty: no tab listing, no clear, no
write. -/
theorem C7_missing_sheet_id (env : SheetEnv) (forms : List PyForm)
    (h : env.google_sheet_id = Option.none) :
    sync_forms_to_sheet env forms = false ∧
    (sync_forms_to_sheet_t env forms).2 = [] := by
  obtain ⟨gc, cok, gid, md, cl, up⟩ := env
  simp only at h
  subst h
  rcases gc with _ | c
  · simp [sync_forms_to_sheet, sync_forms_to_sheet_t, sync_attempt,
      get_google_sheets_service]
  · cases hcc : (!c.isEmpty && cok) <;>
      simp [sync_forms_to_sheet, sync_forms_to_sheet_t, sync_attempt,
        get_google_sheets_service, hcc]

theorem C7_missing_sheet_id_witness :
    sync_forms_to_sheet envNoSheet [] = false ∧
    (sync_forms_to_sheet_t envNoSheet []).2 = [] :=
  C7_missing_sheet_id envNoSheet [] rfl

/-- C8: with valid configuration and a failing clear call, publish
returns false and the write call never appears in the trace of calls
made against the external store. -/
theorem C8_clear_fail_no_write (env : SheetEnv) (forms : List PyForm)
    (c sid : String) (tabs : List String) (e : PyErr)
    (hc : env.google_credentials = some c) (hce : c.isEmpty = false)
    (hok : env.creds_ok = true)
    (hs : env.google_sheet_id = some sid) (hse : sid.isEmpty = false)
    (hm : env.metadata = Except.ok tabs)
    (hcl : env.clear_result = Except.error e) :
    sync_forms_to_sheet env forms = false ∧
    ∀ rng vs, SheetCall.writeRange rng vs ∉ (sync_forms_to_sheet_t env forms).2 := by
  obtain ⟨gc, cok, gid, md, cl, up⟩ := env
  simp only at hc hok hs hm hcl
  subst hc hok hs hm hcl
  simp [sync_forms_to_sheet, sync_forms_to_sheet_t, sync_attempt,
    get_google_sheets_service, hce, hse]

theorem C8_clear_fail_no_write_witness :
    sync_forms_to_sheet envClearFail [] = false ∧
    ∀ rng vs, SheetCall.writeRange rng vs ∉ (sync_forms_to_sheet_t envClearFail []).2 :=
  C8_clear_fail_no_write envClearFail [] "creds" "sid" ["lunar"] (PyErr.http "boom")
    rfl rfl rfl rfl rfl rfl rfl

/-- C9: a successful put changes only the supplied fields of the
addressed record.  The table keeps its length; at every position the id
and created_at are unchanged, each of the six body fields is unchanged
whenever its key was not in the request body, and every record other
than the addressed one is entirely unchanged. -/
theorem C9_update_frame (st : FormStore) (i : Nat) (u : FormUpdate)
    (now : PyDateTime) (r : FormRec)
    (h : (update_form st i u now).resp = Except.ok r) :
    (update_form st i u now).store.rows.length = st.rows.length ∧
    ∀ (j : Nat) (a b : FormRec), st.rows[j]? = some a →
      (update_form st i u now).store.rows[j]? = some b →
      b.id = a.id ∧ b.created_at = a.created_at ∧
      (u.name = Option.none → b.name = a.name) ∧
      (u.email = Option.none → b.email = a.email) ∧
      (u.phone_number = Option.none → b.phone_number = a.phone_number) ∧
      (u.message = Option.none → b.message = a.message) ∧
      (u.company = Option.none → b.company = a.company) ∧
      (u.service = Option.none → b.service = a.service) ∧
      (a.id ≠ i → b = a) := by
  cases hf : st.rows.find? (fun r2 => r2.id == i) with
  | none => simp [update_form, hf] at h
  | some r0 =>
    cases he : checkEmailUpd u.email with
    | error e => simp [update_form, hf, he] at h
    | ok v =>
      cases hp : checkPhoneUpd u.phone_number with
      | error e2 => simp [update_form, hf, he, hp] at h
      | ok w =>
        by_cases hn : u.name = some Option.none ∨ u.company = some Option.none ∨
          u.service = some Option.none
        · simp [update_form, hf, he, hp, hn] at h
        · have hst : (update_form st i u now).store =
              ⟨setById st.rows i (applyUpdate u now), st.next_id⟩ := by
            simp [update_form, hf, he, hp, hn]
          rw [hst]
          constructor
          · exact setById_length st.rows i (applyUpdate u now)
          · intro j a b ha hb
            obtain ⟨b2, hb2, hcase⟩ :=
              setById_getElem st.rows i (applyUpdate u now) j a ha
            rw [hb2] at hb
            have hbb : b2 = b := Option.some.inj hb
            subst hbb
            rcases hcase with hcase | ⟨hfa, hid⟩
            · subst hcase
              exact ⟨rfl, rfl, fun _ => rfl, fun _ => rfl, fun _ => rfl,
                fun _ => rfl, fun _ => rfl, fun _ => rfl, fun _ => rfl⟩
            · subst hfa
              refine ⟨by simp [applyUpdate], by simp [applyUpdate], ?_, ?_, ?_, ?_, ?_, ?_, ?_⟩
              · intro hx; simp [applyUpdate, hx]
              · intro hx; simp [applyUpdate, hx]
              · intro hx; simp [applyUpdate, hx]
              · intro hx; simp [applyUpdate, hx]
              · intro hx; simp [applyUpdate, hx]
              · intro hx; simp [applyUpdate, hx]
              · intro hx; exact absurd hid hx

theorem C9_update_frame_witness :
    (update_form stW 1 uW dtW).store.rows.length = stW.rows.length ∧
    ∀ (j : Nat) (a b : FormRec), stW.rows[j]? = some a →
      (update_form stW 1 uW dtW).store.rows[j]? = some b →
      b.id = a.id ∧ b.created_at = a.created_at ∧
      (uW.name = Option.none → b.name = a.name) ∧
      (uW.email = Option.none → b.email = a.email) ∧
      (uW.phone_number = Option.none → b.phone_number = a.phone_number) ∧
      (uW.message = Option.none → b.message = a.message) ∧
      (uW.company = Option.none → b.company = a.company) ∧
      (uW.service = Option.none → b.service = a.service) ∧
      (a.id ≠ 1 → b = a) :=
  C9_update_frame stW 1 uW dtW (applyUpdate uW dtW recA) rfl

/-- C10: a create request whose email or phone fails its validation
pattern is rejected with HTTP 400 before any store write: the store is
unchanged and no background sync is scheduled. -/
theorem C10_invalid_create_rejected (st : FormStore) (f : FormCreate)
    (now : PyDateTime)
    (h : validate_email f.email = false ∨ validate_phone_number f.phone_number = false) :
    (∃ d, (create_form st f now).resp = Except.error (HErr.http 400 d)) ∧
    (create_form st f now).store = st ∧
    (create_form st f now).scheduled = [] := by
  by_cases he : validate_email f.email = false
  · exact ⟨⟨"Invalid email format", by simp [create_form, he]⟩,
      by simp [create_form, he], by simp [create_form, he]⟩
  · have hp : validate_phone_number f.phone_number = false := by
      rcases h with h1 | h2
      · exact absurd h1 he
      · exact h2
    exact ⟨⟨"Invalid phone number format", by simp [create_form, he, hp]⟩,
      by simp [create_form, he, hp], by simp [create_form, he, hp]⟩

theorem C10_invalid_create_rejected_witness :
    (∃ d, (create_form store0 fBad dt0).resp = Except.error (HErr.http 400 d)) ∧
    (create_form store0 fBad dt0).store = store0 ∧
    (create_form store0 fBad dt0).scheduled = [] :=
  C10_invalid_create_rejected store0 fBad dt0 (Or.inl rfl)
